import Mathlib

/-!
Shallow embedding of the distributed token-bucket rate limiter in
`src/lib.rs`: the data model (`RateLimitSettings`, `RateLimitItem`), the
DynamoDB-backed store operations (`TokenDynamoClient.get`,
`TokenDynamoClient.put_limit`) and the bucket engine (`TokenBucket.limit`).

Machine integers (`u64`) are modelled as `Nat`; unchecked `u64`
multiplication and addition are modelled with an explicit `% 2 ^ 64`
(release-build wrapping semantics), while `saturating_sub` and
`saturating_div` coincide with truncated `Nat` subtraction and division.
The process clock (`current_unix_time`) is passed as an explicit `now`
parameter, and the outcomes of the network calls (`query`, `put_item`)
are passed as explicit values of `QueryResult` / `PutOutcome`.
-/

set_option autoImplicit false

/-- The modulus of Rust `u64` arithmetic: unchecked `u64` operations wrap
modulo this value in release builds. -/
def u64Mod : Nat := 2 ^ 64

/-- `RateLimitSettings` from the source. `refill_interval` is a
`NonZeroU64` in the source; its positivity is carried as a hypothesis in
the theorems that need it. -/
structure RateLimitSettings where
  max_tokens : Nat
  starting_tokens : Nat
  refill_rate : Nat
  refill_interval : Nat
  deriving DecidableEq

/-- `RateLimitItem` from the source: one stored bucket state. -/
structure RateLimitItem where
  last_updated : Nat
  tokens : Nat
  deriving DecidableEq

/-- `RateLimitItem::new`: a fresh item carries the current unix time as
`last_updated`; the clock value is the explicit `now` argument. -/
def RateLimitItem.new (tokens now : Nat) : RateLimitItem :=
  { last_updated := now, tokens := tokens }

/-- A DynamoDB attribute value, as far as the sort-key inspection in
`TokenDynamoClient::get` distinguishes them: a string, or anything else. -/
inductive AttrVal where
  | S (s : String)
  | other
  deriving DecidableEq

/-- One raw item returned by the query in `TokenDynamoClient::get`: the
value found at the sort-key attribute (if any), and the results of the two
possible `from_item` decoding attempts on the item — `none` models a
record that fails to deserialize. -/
structure StoreRow where
  sk : Option AttrVal
  asLimit : Option RateLimitItem
  asSettings : Option RateLimitSettings
  deriving DecidableEq

/-- One iteration of the row loop in `TokenDynamoClient::get`, following
the four match arms in order: a `LIMIT` row decoded with `.ok()` when no
limit was seen yet, a `SETTINGS` row decoded with `.ok()` when no settings
were seen yet, `break` when both are present, otherwise `continue`.
The boolean is the `break` flag. -/
def scanStep (r : StoreRow) (l : Option RateLimitItem)
    (s : Option RateLimitSettings) :
    (Option RateLimitItem × Option RateLimitSettings) × Bool :=
  match r.sk with
  | some (.S v) =>
    if l = none ∧ v = "LIMIT" then ((r.asLimit, s), false)
    else if s = none ∧ v = "SETTINGS" then ((l, r.asSettings), false)
    else if l ≠ none ∧ s ≠ none then ((l, s), true)
    else ((l, s), false)
  | some .other =>
    if l ≠ none ∧ s ≠ none then ((l, s), true) else ((l, s), false)
  | none => ((l, s), false)

/-- The full row loop of `TokenDynamoClient::get`. -/
def scanRows : List StoreRow → Option RateLimitItem →
    Option RateLimitSettings →
    Option RateLimitItem × Option RateLimitSettings
  | [], l, s => (l, s)
  | r :: rest, l, s =>
    match scanStep r l s with
    | (acc, true) => acc
    | ((l2, s2), false) => scanRows rest l2 s2

/-- `TokenBucketError` from the source (the carried SDK payloads are
irrelevant to the claims). -/
inductive TokenBucketError where
  | dynamoGet
  | dynamoPut
  | serdeError
  deriving DecidableEq

/-- The outcome of the DynamoDB query issued by `TokenDynamoClient::get`:
either a list of raw items, or a transport/service failure. -/
inductive QueryResult where
  | ok (rows : List StoreRow)
  | err
  deriving DecidableEq

/-- `TokenDynamoClient::get`: run the query, scan the rows, substitute the
caller-supplied default settings when no settings decoded, and synthesize
a fresh `RateLimitItem` with `starting_tokens` and the current time when
no limit decoded. It issues no write. -/
def TokenDynamoClient.get (q : QueryResult) (default_settings : RateLimitSettings)
    (now : Nat) :
    Except TokenBucketError (RateLimitItem × RateLimitSettings) :=
  match q with
  | .err => .error .dynamoGet
  | .ok rows =>
    let scanned := scanRows rows none none
    let settings := scanned.2.getD default_settings
    let lim := scanned.1.getD (RateLimitItem.new settings.starting_tokens now)
    .ok (lim, settings)

/-- Modelled from the spec: the backend's evaluation of the condition
expression `last_updated <= :new_updated` attached to the `put_item` in
`TokenDynamoClient::put_limit`. The stored record is replaced only when
its `last_updated` is at most the incoming one; a missing record accepts
the write, per the Store contract of §4.2. -/
def storeAccepts : Option RateLimitItem → RateLimitItem → Bool
  | none, _ => true
  | some old, new => decide (old.last_updated ≤ new.last_updated)

/-- The `last_updated` of the durably stored record, with an empty store
read as 0. -/
def storedLU : Option RateLimitItem → Nat
  | none => 0
  | some r => r.last_updated

/-- `TokenDynamoClient::put_limit` acting on the durable record for one
identifier: the conditional write either replaces the record or, on a
`ConditionalCheckFailedException`, leaves it unchanged and still returns
`Ok(())` (the stale write is a harmless no-op). The first component is
the store after the call, the second the value returned to the engine. -/
def TokenDynamoClient.put_limit (stored : Option RateLimitItem)
    (new : RateLimitItem) :
    Option RateLimitItem × Except TokenBucketError Unit :=
  if storeAccepts stored new then (some new, .ok ())
  else (stored, .ok ())

/-- `LimitResult` from the source. -/
inductive LimitResult where
  | Allow (remaining : Nat)
  | Deny
  deriving DecidableEq

/-- The elapsed-intervals computation in `TokenBucket::limit`:
`now.saturating_sub(last_updated).saturating_div(refill_interval)`.
Truncated `Nat` subtraction is exactly `saturating_sub`, and `Nat`
division by a positive divisor is exactly `saturating_div`. -/
def intervalsOf (l : RateLimitItem) (s : RateLimitSettings) (now : Nat) : Nat :=
  (now - l.last_updated) / s.refill_interval

/-- `refilled_tokens = intervals * settings.refill_rate`: an unchecked
`u64` multiplication, hence wrapping modulo `2 ^ 64`. -/
def refilledTokensOf (l : RateLimitItem) (s : RateLimitSettings) (now : Nat) : Nat :=
  (intervalsOf l s now * s.refill_rate) % u64Mod

/-- `limit.tokens = cmp::min(settings.max_tokens, limit.tokens + refilled_tokens)`:
the addition is an unchecked `u64` addition, hence wrapping modulo `2 ^ 64`. -/
def tokensAfterRefill (l : RateLimitItem) (s : RateLimitSettings) (now : Nat) : Nat :=
  min s.max_tokens ((l.tokens + refilledTokensOf l s now) % u64Mod)

/-- The pure core of `TokenBucket::limit` after the store read: the refill,
the admission test, and the consumption. The second component is the
`RateLimitItem` handed to `put_limit` when a write is issued (`none` on
deny). Note the source mutates only the `tokens` field before the write:
`last_updated` keeps the value read from the store. -/
def limitStep (l : RateLimitItem) (s : RateLimitSettings) (now cost : Nat) :
    LimitResult × Option RateLimitItem :=
  let t1 := tokensAfterRefill l s now
  if t1 < cost then (.Deny, none)
  else
    let t2 := t1 - cost
    (.Allow t2, some { l with tokens := t2 })

/-- The outcome of the `put_item` call inside `put_limit`, as seen by the
engine: a plain success, a `ConditionalCheckFailedException` (mapped to
`Ok`), or any other service/transport error (mapped to `DynamoPut`). -/
inductive PutOutcome where
  | success
  | condFailed
  | serviceErr
  deriving DecidableEq

/-- `TokenBucket` from the source: a client and the default settings. -/
structure TokenBucket (T : Type) where
  client : T
  default_settings : RateLimitSettings

/-- `TokenBucket::new` from the source: it merely wraps its arguments in
`Ok`, despite the fallible signature. -/
def TokenBucket.new {T : Type} (client : T) (default_settings : RateLimitSettings) :
    Except TokenBucketError (TokenBucket T) :=
  .ok { client := client, default_settings := default_settings }

/-- The tail of `TokenBucket::limit` after the store read: run the pure
step; on deny return `Ok(Deny)` without touching the client; on allow,
invoke `put_limit` and map its outcome (`?` on a service error, `Ok` on
success or on the benign conditional-check failure). The second component
is the argument passed to `put_limit`, `none` when it is never invoked. -/
def limitAfterGet (l : RateLimitItem) (s : RateLimitSettings) (p : PutOutcome)
    (now cost : Nat) :
    Except TokenBucketError LimitResult × Option RateLimitItem :=
  match limitStep l s now cost with
  | (.Deny, _) => (.ok .Deny, none)
  | (.Allow r, w) =>
    match p with
    | .success => (.ok (.Allow r), w)
    | .condFailed => (.ok (.Allow r), w)
    | .serviceErr => (.error .dynamoPut, w)

/-- `TokenBucket::limit`: fetch state and settings (propagating a failed
get with `?`, which aborts the decision), then refill, test, consume and
publish. `nowGet` is the clock value observed inside `get` when it
synthesizes a fresh item, `now` the one observed by `limit` itself. -/
def TokenBucket.limit {T : Type} (b : TokenBucket T) (q : QueryResult)
    (p : PutOutcome) (nowGet now cost : Nat) :
    Except TokenBucketError LimitResult × Option RateLimitItem :=
  match TokenDynamoClient.get q b.default_settings nowGet with
  | .error e => (.error e, none)
  | .ok (l, s) => limitAfterGet l s p now cost

/-- Modelled from the spec: the refill computation with the saturating
arithmetic the spec prescribes ("overflow/underflow must saturate rather
than wrap"), as the comparison point for the code's wrapping version. -/
def specSaturatingRefill (l : RateLimitItem) (s : RateLimitSettings) (now : Nat) : Nat :=
  let refilled := min (u64Mod - 1) (intervalsOf l s now * s.refill_rate)
  min s.max_tokens (min (u64Mod - 1) (l.tokens + refilled))

/-- Claim C1: the source publishes the consumed token count but never sets
`last_updated` to the observed `now` before the write: at the concrete
input `state = {last_updated 0, tokens 5}`, `settings = {max 10, start 10,
rate 0, interval 1}`, `now = 10`, `cost = 3`, the admitted call hands
`put_limit` the record `{last_updated 0, tokens 2}`, whose timestamp is
the stale stored one, not the current time 10. -/
theorem C1_published_state_keeps_stale_timestamp :
    limitStep ⟨0, 5⟩ ⟨10, 10, 0, 1⟩ 10 3 = (.Allow 2, some ⟨0, 2⟩) ∧
    (0 : Nat) ≠ 10 := by decide

/-- Claim C3: the interval multiplication and the token addition in the
refill are unchecked `u64` operations, so they wrap instead of saturating:
with `tokens = 0`, `last_updated = 0`, `refill_rate = 2 ^ 62`,
`refill_interval = 1`, `max_tokens = 2 ^ 64 - 1` and `now = 4`, the code
computes `4 * 2 ^ 62 ≡ 0 (mod 2 ^ 64)` and refills nothing, while the
saturating arithmetic the spec prescribes yields the full
`2 ^ 64 - 1` tokens. -/
theorem C3_refill_wraps_instead_of_saturating :
    tokensAfterRefill ⟨0, 0⟩ ⟨u64Mod - 1, 0, 2 ^ 62, 1⟩ 4 = 0 ∧
    specSaturatingRefill ⟨0, 0⟩ ⟨u64Mod - 1, 0, 2 ^ 62, 1⟩ 4 = u64Mod - 1 := by
  decide

/-- Claim C4 counterexample: a store whose only row carries the sort key
`LIMIT` but fails to deserialize (`asLimit = none`, as `from_item(...).ok()`
produces on a malformed record) makes `get` return `Ok` with a freshly
synthesized default state — no typed serialization error is propagated. -/
theorem C4_deserialization_failure_is_swallowed :
    TokenDynamoClient.get (.ok [⟨some (.S "LIMIT"), none, none⟩]) ⟨10, 7, 1, 1⟩ 100 =
      .ok (⟨100, 7⟩, ⟨10, 7, 1, 1⟩) := rfl

/-- Claim C4 amended: a successful query never yields an error from `get`
regardless of how many stored rows fail to deserialize (decode failures are
silently replaced by defaults), while a failed query propagates the typed
`DynamoGet` error through `limit`, which aborts with no decision and no
write. -/
theorem C4_amended_get_errors (rows : List StoreRow) (d : RateLimitSettings)
    (nowGet now cost : Nat) (p : PutOutcome) {T : Type} (b : TokenBucket T) :
    (∃ v, TokenDynamoClient.get (.ok rows) d nowGet = .ok v) ∧
    TokenBucket.limit b .err p nowGet now cost = (.error .dynamoGet, none) :=
  ⟨⟨_, rfl⟩, rfl⟩

/-- Claim C10: `TokenBucket::new` always returns `Ok`, for every client
and every default settings value, despite its fallible `Result`
signature. -/
theorem C10_new_never_fails (T : Type) (c : T) (d : RateLimitSettings) :
    TokenBucket.new c d = .ok { client := c, default_settings := d } := rfl

/-- Claim C2: if `put_limit` stores `s1` and is then issued `s2` with a
strictly smaller `last_updated`, the stored record after both calls is
still `s1` and the stale write returns `Ok` as a harmless no-op; moreover
the `last_updated` of the stored record never decreases across any
`put_limit` call. -/
theorem C2_conditional_write_safety (init st : Option RateLimitItem)
    (s1 s2 s3 : RateLimitItem)
    (h1 : storeAccepts init s1 = true)
    (h2 : s2.last_updated < s1.last_updated) :
    (TokenDynamoClient.put_limit (TokenDynamoClient.put_limit init s1).1 s2).1 = some s1 ∧
    (TokenDynamoClient.put_limit (TokenDynamoClient.put_limit init s1).1 s2).2 = .ok () ∧
    storedLU st ≤ storedLU (TokenDynamoClient.put_limit st s3).1 := by
  have hfirst : TokenDynamoClient.put_limit init s1 = (some s1, .ok ()) := by
    simp [TokenDynamoClient.put_limit, h1]
  have hacc : storeAccepts (some s1) s2 = false := by
    simp [storeAccepts]
    omega
  refine ⟨?_, ?_, ?_⟩
  · rw [hfirst]
    simp [TokenDynamoClient.put_limit, hacc]
  · rw [hfirst]
    simp [TokenDynamoClient.put_limit, hacc]
  · cases st with
    | none => simp [storedLU]
    | some old =>
      by_cases hc : storeAccepts (some old) s3 = true
      · have hle : old.last_updated ≤ s3.last_updated := by
          simpa [storeAccepts] using hc
        simp [TokenDynamoClient.put_limit, hc, storedLU, hle]
      · simp [TokenDynamoClient.put_limit, hc, storedLU]

/-- Witness for C2 at a concrete input: empty initial store, `s1` with
timestamp 5, stale `s2` with timestamp 2. -/
theorem C2_conditional_write_safety_witness :
    (TokenDynamoClient.put_limit
        (TokenDynamoClient.put_limit none ⟨5, 3⟩).1 ⟨2, 7⟩).1 = some ⟨5, 3⟩ ∧
    (TokenDynamoClient.put_limit
        (TokenDynamoClient.put_limit none ⟨5, 3⟩).1 ⟨2, 7⟩).2 = .ok () ∧
    storedLU none ≤ storedLU (TokenDynamoClient.put_limit none ⟨0, 0⟩).1 :=
  C2_conditional_write_safety none none ⟨5, 3⟩ ⟨2, 7⟩ ⟨0, 0⟩ (by decide) (by decide)

/-- Claim C5: when the refilled token count is below the cost, `limit`
returns `Ok(Deny)` and never invokes `put_limit` (the write component is
`none`), so the durable state is untouched. -/
theorem C5_no_write_on_deny {T : Type} (b : TokenBucket T) (rows : List StoreRow)
    (p : PutOutcome) (nowGet now cost : Nat) (l : RateLimitItem)
    (s : RateLimitSettings)
    (hget : TokenDynamoClient.get (.ok rows) b.default_settings nowGet = .ok (l, s))
    (hlt : tokensAfterRefill l s now < cost) :
    TokenBucket.limit b (.ok rows) p nowGet now cost = (.ok .Deny, none) := by
  unfold TokenBucket.limit
  rw [hget]
  simp [limitAfterGet, limitStep, hlt]

/-- Witness for C5 at a concrete input: empty store, default settings with
zero starting tokens, cost 1. -/
theorem C5_no_write_on_deny_witness :
    TokenBucket.limit (⟨(), ⟨10, 0, 0, 1⟩⟩ : TokenBucket Unit) (.ok [])
        .success 0 0 1 = (.ok .Deny, none) :=
  C5_no_write_on_deny ⟨(), ⟨10, 0, 0, 1⟩⟩ [] .success 0 0 1 ⟨0, 0⟩ ⟨10, 0, 0, 1⟩
    rfl (by decide)

/-- Claim C8: on any successful query, `get` returns some pair `(li, se)`
such that, independently, (a) when the row scan decodes no settings record,
`se` is the caller-supplied default settings, and (b) when the row scan
decodes no state record, `li` is the synthesized state whose tokens are the
applicable settings' `starting_tokens` (`se`, whether stored or defaulted)
and whose `last_updated` is the current time; being a pure function of the
query result, `get` writes nothing. -/
theorem C8_default_substitution (rows : List StoreRow) (d : RateLimitSettings)
    (now : Nat) :
    ∃ li se, TokenDynamoClient.get (.ok rows) d now = .ok (li, se) ∧
      ((scanRows rows none none).2 = none → se = d) ∧
      ((scanRows rows none none).1 = none →
        li = ⟨now, se.starting_tokens⟩) := by
  refine ⟨((scanRows rows none none).1).getD
      (RateLimitItem.new (((scanRows rows none none).2).getD d).starting_tokens now),
    ((scanRows rows none none).2).getD d, rfl, ?_, ?_⟩
  · intro hs
    rw [hs]
    rfl
  · intro hl
    rw [hl]
    rfl

/-- Witness for C8 at a concrete input exercising the mixed case: a store
whose only row is a decodable `SETTINGS` record with `starting_tokens = 3`
and no state record, read with default settings whose `starting_tokens`
is 7 at time 5. The synthesized state takes tokens 3 from the stored
settings, not 7 from the defaults, and timestamp 5. -/
theorem C8_default_substitution_witness :
    TokenDynamoClient.get (.ok [⟨some (.S "SETTINGS"), none, some ⟨10, 3, 1, 1⟩⟩])
        ⟨10, 7, 1, 1⟩ 5 = .ok (⟨5, 3⟩, ⟨10, 3, 1, 1⟩) ∧
    (∃ li se,
      TokenDynamoClient.get (.ok [⟨some (.S "SETTINGS"), none, some ⟨10, 3, 1, 1⟩⟩])
          ⟨10, 7, 1, 1⟩ 5 = .ok (li, se) ∧
      ((scanRows [⟨some (.S "SETTINGS"), none, some ⟨10, 3, 1, 1⟩⟩] none none).2 = none →
        se = ⟨10, 7, 1, 1⟩) ∧
      ((scanRows [⟨some (.S "SETTINGS"), none, some ⟨10, 3, 1, 1⟩⟩] none none).1 = none →
        li = ⟨5, se.starting_tokens⟩)) :=
  ⟨rfl, C8_default_substitution [⟨some (.S "SETTINGS"), none, some ⟨10, 3, 1, 1⟩⟩]
    ⟨10, 7, 1, 1⟩ 5⟩

/-- Claim C6: the elapsed-interval computation uses saturating subtraction,
so clock skew (`now < last_updated`) yields zero intervals; and when
`last_updated ≤ now` it is exactly the floor of
`(now - last_updated) / refill_interval`: the greatest count of whole
intervals fitting in the elapsed time. -/
theorem C6_elapsed_intervals_floor (l : RateLimitItem) (s : RateLimitSettings)
    (now : Nat) (h : 0 < s.refill_interval) :
    (now < l.last_updated → intervalsOf l s now = 0) ∧
    (l.last_updated ≤ now →
      s.refill_interval * intervalsOf l s now ≤ now - l.last_updated ∧
      now - l.last_updated < s.refill_interval * (intervalsOf l s now + 1)) := by
  constructor
  · intro hlt
    unfold intervalsOf
    rw [Nat.sub_eq_zero_of_le (Nat.le_of_lt hlt), Nat.zero_div]
  · intro _
    unfold intervalsOf
    have hd := Nat.div_add_mod (now - l.last_updated) s.refill_interval
    have hm := Nat.mod_lt (now - l.last_updated) h
    constructor
    · calc s.refill_interval * ((now - l.last_updated) / s.refill_interval)
          ≤ s.refill_interval * ((now - l.last_updated) / s.refill_interval) +
              (now - l.last_updated) % s.refill_interval := Nat.le_add_right _ _
        _ = now - l.last_updated := hd
    · rw [Nat.mul_add, Nat.mul_one]
      calc now - l.last_updated
          = s.refill_interval * ((now - l.last_updated) / s.refill_interval) +
              (now - l.last_updated) % s.refill_interval := hd.symm
        _ < s.refill_interval * ((now - l.last_updated) / s.refill_interval) +
              s.refill_interval := Nat.add_lt_add_left hm _

/-- Witness for C6 at a concrete input: `last_updated = 7`,
`refill_interval = 3`, evaluated both below and above the stored
timestamp is covered by `now = 13` (skew branch holds vacuously). -/
theorem C6_elapsed_intervals_floor_witness :
    ((13 : Nat) < (⟨7, 0⟩ : RateLimitItem).last_updated →
      intervalsOf ⟨7, 0⟩ ⟨10, 10, 1, 3⟩ 13 = 0) ∧
    ((⟨7, 0⟩ : RateLimitItem).last_updated ≤ 13 →
      (⟨10, 10, 1, 3⟩ : RateLimitSettings).refill_interval *
          intervalsOf ⟨7, 0⟩ ⟨10, 10, 1, 3⟩ 13 ≤ 13 - (7 : Nat) ∧
      13 - (7 : Nat) < (⟨10, 10, 1, 3⟩ : RateLimitSettings).refill_interval *
          (intervalsOf ⟨7, 0⟩ ⟨10, 10, 1, 3⟩ 13 + 1)) :=
  C6_elapsed_intervals_floor ⟨7, 0⟩ ⟨10, 10, 1, 3⟩ 13 (by decide)

/-- Claim C7 counterexample: with `tokens = 0`, `last_updated = 0`,
`refill_rate = 2 ^ 62`, `refill_interval = 1` and
`max_tokens = 2 ^ 64 - 1`, the refill result at `now = 4` wraps to 0 and
is strictly below the result at the earlier `now = 3`, so the computation
is not non-decreasing in `now`. -/
theorem C7_counterexample_not_monotone :
    tokensAfterRefill ⟨0, 0⟩ ⟨u64Mod - 1, 0, 2 ^ 62, 1⟩ 4 <
      tokensAfterRefill ⟨0, 0⟩ ⟨u64Mod - 1, 0, 2 ^ 62, 1⟩ 3 := by decide

/-- Claim C7 amended: the refill result never exceeds `max_tokens`, and
it is non-decreasing in `now` provided the refill arithmetic at the later
time does not overflow `u64`
(`tokens + intervals * refill_rate < 2 ^ 64`). -/
theorem C7_refill_monotone_no_overflow (l : RateLimitItem)
    (s : RateLimitSettings) (now1 now2 now3 : Nat) (h12 : now1 ≤ now2)
    (hov : l.tokens + intervalsOf l s now2 * s.refill_rate < u64Mod) :
    tokensAfterRefill l s now1 ≤ tokensAfterRefill l s now2 ∧
    tokensAfterRefill l s now3 ≤ s.max_tokens := by
  refine ⟨?_, Nat.min_le_left _ _⟩
  have hi : intervalsOf l s now1 ≤ intervalsOf l s now2 :=
    Nat.div_le_div_right (Nat.sub_le_sub_right h12 _)
  have hr : intervalsOf l s now1 * s.refill_rate ≤
      intervalsOf l s now2 * s.refill_rate :=
    Nat.mul_le_mul_right _ hi
  have h2 : intervalsOf l s now2 * s.refill_rate < u64Mod :=
    Nat.lt_of_le_of_lt (Nat.le_add_left _ _) hov
  have h1 : intervalsOf l s now1 * s.refill_rate < u64Mod :=
    Nat.lt_of_le_of_lt hr h2
  have hsum2 : l.tokens + intervalsOf l s now2 * s.refill_rate < u64Mod := hov
  have hsum1 : l.tokens + intervalsOf l s now1 * s.refill_rate < u64Mod :=
    Nat.lt_of_le_of_lt (Nat.add_le_add_left hr _) hov
  unfold tokensAfterRefill refilledTokensOf
  rw [Nat.mod_eq_of_lt h1, Nat.mod_eq_of_lt h2, Nat.mod_eq_of_lt hsum1,
    Nat.mod_eq_of_lt hsum2]
  exact min_le_min (Nat.le_refl _) (Nat.add_le_add_left hr _)

/-- Witness for C7 at a concrete input: small token counts, `now` moving
from 1 to 2, overflow hypothesis trivially satisfied. -/
theorem C7_refill_monotone_no_overflow_witness :
    tokensAfterRefill ⟨0, 5⟩ ⟨10, 10, 1, 1⟩ 1 ≤
      tokensAfterRefill ⟨0, 5⟩ ⟨10, 10, 1, 1⟩ 2 ∧
    tokensAfterRefill ⟨0, 5⟩ ⟨10, 10, 1, 1⟩ 0 ≤
      (⟨10, 10, 1, 1⟩ : RateLimitSettings).max_tokens :=
  C7_refill_monotone_no_overflow ⟨0, 5⟩ ⟨10, 10, 1, 1⟩ 1 2 0 (by decide) (by decide)

/-- Claim C9: a cost of 0 always yields `Allow` (with the full refilled
token count as remainder), and an admitted cost never drives the count
below zero: any `Allow r` satisfies `cost ≤ tokens_after_refill` and
`r + cost = tokens_after_refill` exactly, with no underflow. -/
theorem C9_zero_cost_allows (l : RateLimitItem) (s : RateLimitSettings)
    (now cost r : Nat) (h : (limitStep l s now cost).1 = .Allow r) :
    (limitStep l s now 0).1 = .Allow (tokensAfterRefill l s now) ∧
    cost ≤ tokensAfterRefill l s now ∧
    r + cost = tokensAfterRefill l s now := by
  unfold limitStep at h ⊢
  by_cases hc : tokensAfterRefill l s now < cost
  · simp [hc] at h
  · have hle := Nat.le_of_not_lt hc
    simp only [hc, if_false] at h
    have hr : tokensAfterRefill l s now - cost = r := by
      simpa using h
    refine ⟨by simp, hle, ?_⟩
    rw [← hr]
    exact Nat.sub_add_cancel hle

/-- Witness for C9 at a concrete input: 5 tokens, cost 2, admitted with
remainder 3. -/
theorem C9_zero_cost_allows_witness :
    (limitStep ⟨0, 5⟩ ⟨10, 10, 1, 1⟩ 0 0).1 =
      .Allow (tokensAfterRefill ⟨0, 5⟩ ⟨10, 10, 1, 1⟩ 0) ∧
    (2 : Nat) ≤ tokensAfterRefill ⟨0, 5⟩ ⟨10, 10, 1, 1⟩ 0 ∧
    3 + 2 = tokensAfterRefill ⟨0, 5⟩ ⟨10, 10, 1, 1⟩ 0 :=
  C9_zero_cost_allows ⟨0, 5⟩ ⟨10, 10, 1, 1⟩ 0 2 3 (by decide)
